import Mathlib

/-!
Verification development for the segmented-stream downloader
(Go package `download`, file `download.go`, plus its design document).

The Go source is shallowly embedded: pure control flow is translated to
Lean functions; the HTTP transport, the filesystem and the scheduler
callbacks are abstracted as explicit environments; machine integers are
modelled as `Nat` (the relevant counters never overflow in the source).
-/

namespace Download

/-- Source constant `FailThreshold = 20`: segment-level attempt threshold. -/
def FailThreshold : Nat := 20

/-- Source constant `RetryThreshold = 3`: inline transport-retry limit in `doRequest`. -/
def RetryThreshold : Nat := 3

/-- Abstraction of `*http.Response`: only the status code is inspected by the source. -/
structure Response where
  status : Nat
deriving DecidableEq

/-- Source `defaultClient = &http.Client {}`; clients are abstracted as `Nat` handles. -/
def defaultClient : Nat := 0

/-- Embedding of the accessor `func (d *DownloadTask) client() *http.Client`:
returns `d.Client` when non-nil, otherwise `defaultClient`. A nil Go pointer
is modelled as `none`. -/
def client (c : Option Nat) : Nat :=
  match c with
  | some x => x
  | none => defaultClient

/-- Result of one `task.Client.Do(req)` call. `panicked` models the Go runtime
panic raised when the method is invoked on a nil `*http.Client`. -/
inductive DoResult where
  | panicked : DoResult
  | ok : Response → DoResult
  | transportError : DoResult
deriving DecidableEq

/-- One `task.Client.Do(req)` call: dereferencing a nil client panics; otherwise
the transport either delivers a response or a transport error. -/
def clientDo (c : Option Nat) (resp : Option Response) : DoResult :=
  match c with
  | none => DoResult.panicked
  | some _ =>
    match resp with
    | some r => DoResult.ok r
    | none => DoResult.transportError

/-- Result of `doRequest`: a response, the `All requests failed` error, or a
propagated panic. -/
inductive ReqResult where
  | panicked : ReqResult
  | ok : Response → ReqResult
  | allFailed : ReqResult
deriving DecidableEq

/-- The loop body of `doRequest`: `for i := 0; i < RetryThreshold; i++` with
`rem` remaining iterations and `i` the current try index. `tr i` is the
transport outcome of the i-th `Client.Do` call. Returns the result together
with the number of `Client.Do` calls performed. -/
def doRequestLoop (c : Option Nat) (tr : Nat → Option Response) (i : Nat) : Nat → ReqResult × Nat
  | 0 => (ReqResult.allFailed, 0)
  | rem + 1 =>
    match clientDo c (tr i) with
    | DoResult.panicked => (ReqResult.panicked, 1)
    | DoResult.ok r => (ReqResult.ok r, 1)
    | DoResult.transportError =>
      let p := doRequestLoop c tr (i + 1) rem
      (p.1, p.2 + 1)

/-- Embedding of `func doRequest(task *DownloadTask, req *http.Request)`:
up to `RetryThreshold` immediate inline tries of `task.Client.Do(req)`
(note: the raw `Client` field, not the `client()` accessor), returning the
first successful response, or an error once every try failed. -/
def doRequest (c : Option Nat) (tr : Nat → Option Response) : ReqResult × Nat :=
  doRequestLoop c tr 0 RetryThreshold

/-- Modelled from the spec: the segment-URL construction collaborator
(`getSegUrl`, not under src/) is a pure function of the base URL and the
segment index producing the per-segment request URL. -/
def getSegUrl (url : String) (seg : Nat) : String :=
  url ++ "&sq=" ++ toString seg

/-- Environment for one `downloadSegment` call: request-creation success per
URL (`http.NewRequest`), the transport outcome per URL and inline-try index,
and the filesystem outcomes for the scratch file (`ioutil.TempFile`,
`io.Copy`). -/
structure FetchEnv where
  reqOk : String → Bool
  transport : String → Nat → Option Response
  tempFileOk : Bool
  tempFileName : String
  copyOk : Bool

/-- Observable effects of one `downloadSegment` call: its boolean return
value, whether `Fatalf` (process exit) or a panic occurred, the URLs on which
`doRequest` was invoked (in order), scratch files created and deleted, and
the `status.downloaded` record made (success flag and scratch filename). -/
structure FetchResult where
  ok : Bool
  fatalErr : Bool
  panicked : Bool
  urlsRequested : List String
  filesCreated : List String
  filesDeleted : List String
  recorded : Option (Bool × String)
deriving DecidableEq

/-- Whether a `doRequest` result is a propagated nil-client panic. -/
def isPanic : ReqResult → Bool
  | ReqResult.panicked => true
  | _ => false

/-- Embedding of `func downloadSegment(task, status, segment) bool`:
build the segment URL request (failure is `Fatalf`, i.e. process exit);
perform `doRequest`; on non-200 status issue one probe request against the
bare `task.Url` whose result is discarded, and report failure; on 200 persist
the body to a scratch file, deleting it and reporting failure if the copy
fails; on success record the outcome with the scratch filename and report
success. -/
def downloadSegment (c : Option Nat) (env : FetchEnv) (url : String) (seg : Nat) : FetchResult :=
  let target := getSegUrl url seg
  if env.reqOk target = false then
    { ok := false, fatalErr := true, panicked := false, urlsRequested := [],
      filesCreated := [], filesDeleted := [], recorded := none }
  else
    match (doRequest c (env.transport target)).1 with
    | ReqResult.panicked =>
      { ok := false, fatalErr := false, panicked := true, urlsRequested := [target],
        filesCreated := [], filesDeleted := [], recorded := none }
    | ReqResult.allFailed =>
      { ok := false, fatalErr := false, panicked := false, urlsRequested := [target],
        filesCreated := [], filesDeleted := [], recorded := none }
    | ReqResult.ok r =>
      if r.status ≠ 200 then
        if env.reqOk url then
          { ok := false, fatalErr := false,
            panicked := isPanic (doRequest c (env.transport url)).1,
            urlsRequested := [target, url],
            filesCreated := [], filesDeleted := [], recorded := none }
        else
          { ok := false, fatalErr := false, panicked := false, urlsRequested := [target],
            filesCreated := [], filesDeleted := [], recorded := none }
      else
        if env.tempFileOk = false then
          { ok := false, fatalErr := false, panicked := false, urlsRequested := [target],
            filesCreated := [], filesDeleted := [], recorded := none }
        else if env.copyOk = false then
          { ok := false, fatalErr := false, panicked := false, urlsRequested := [target],
            filesCreated := [env.tempFileName], filesDeleted := [env.tempFileName],
            recorded := none }
        else
          { ok := true, fatalErr := false, panicked := false, urlsRequested := [target],
            filesCreated := [env.tempFileName], filesDeleted := [],
            recorded := some (true, env.tempFileName) }

/-- Observable events of one worker loop (`func downloadTask`), in program
order: a `NextSegment` call and its result, a `downloadSegment` call for a
segment at a given failure count, a `status.downloaded` record (success
flag), a `done` progress callback, and the one-second retry sleep. -/
inductive WEvent where
  | next : Option Nat → WEvent
  | attempt : Nat → Nat → WEvent
  | record : Nat → Bool → WEvent
  | done : Nat → WEvent
  | sleep : WEvent
deriving DecidableEq

/-- Embedding of the loop of `func downloadTask`: `queue` is the worker's
segment queue (`queue.NextSegment` pops its head), `seg` the current segment
(`none` models the `-1` sentinel), `fc` the local `failCount`, and
`att s f` the boolean result of the `downloadSegment` call for segment `s`
at failure count `f`. Produces the worker's event trace. -/
def downloadTaskLoop (att : Nat → Nat → Bool) (queue : List Nat) (seg : Option Nat) (fc : Nat) :
    List WEvent :=
  match seg, queue with
  | none, [] => [WEvent.next none]
  | none, s :: rest => WEvent.next (some s) :: downloadTaskLoop att rest (some s) fc
  | some s, q =>
    if FailThreshold ≤ fc then
      WEvent.record s false :: WEvent.done s :: downloadTaskLoop att q none 0
    else if att s fc then
      WEvent.attempt s fc :: WEvent.record s true :: WEvent.done s ::
        downloadTaskLoop att q none 0
    else
      WEvent.attempt s fc :: WEvent.sleep :: downloadTaskLoop att q (some s) (fc + 1)
termination_by (queue.length, (match seg with | some _ => 1 | none => 0 : Nat), FailThreshold + 1 - fc)
decreasing_by
  all_goals simp_wf
  · apply Prod.Lex.left
    simp
  · apply Prod.Lex.right
    apply Prod.Lex.left
    omega
  · apply Prod.Lex.right
    apply Prod.Lex.left
    omega
  · apply Prod.Lex.right
    apply Prod.Lex.right
    omega

/-- Modelled from the spec: the per-segment lifecycle of §4.4 — a dispensed
segment is retried at increasing failure counts until it succeeds or the
retry policy signals abandonment, at which point exactly one terminal
outcome is recorded. Spec-side definition for the refinement claim about
`downloadTaskLoop`. -/
def perSegmentRun (att : Nat → Nat → Bool) (s : Nat) (fc : Nat) : List WEvent :=
  if FailThreshold ≤ fc then [WEvent.record s false, WEvent.done s]
  else if att s fc then [WEvent.attempt s fc, WEvent.record s true, WEvent.done s]
  else WEvent.attempt s fc :: WEvent.sleep :: perSegmentRun att s (fc + 1)
termination_by FailThreshold + 1 - fc
decreasing_by
  simp_wf
  omega

/-- Modelled from the spec: events of one freshly dispensed segment,
starting from attempt count zero (§3, RetryState reset on dispensing). -/
def perSegmentEvents (att : Nat → Nat → Bool) (s : Nat) : List WEvent :=
  perSegmentRun att s 0

/-- Modelled from the spec: the full worker trace of §4.4 — each queued
segment in turn is dispensed and run to a terminal outcome from a fresh
attempt counter, and the loop exits when the queue reports no more
segments. Spec-side definition for the refinement claim. -/
def traceOf (att : Nat → Nat → Bool) : List Nat → List WEvent
  | [] => [WEvent.next none]
  | s :: rest => WEvent.next (some s) :: (perSegmentEvents att s ++ traceOf att rest)

/-- Number of `downloadSegment` calls (attempt groups) in a worker trace. -/
def countAttempts : List WEvent → Nat
  | [] => 0
  | WEvent.attempt _ _ :: es => countAttempts es + 1
  | WEvent.next _ :: es => countAttempts es
  | WEvent.record _ _ :: es => countAttempts es
  | WEvent.done _ :: es => countAttempts es
  | WEvent.sleep :: es => countAttempts es

/-- Terminal outcome of one segment (spec §3 SegmentOutcome): the scratch
file contents on success, or permanent failure. -/
inductive SegOutcome where
  | success : List Nat → SegOutcome
  | permanentFailure : SegOutcome
deriving DecidableEq

/-- State of the merge coordinator: the merge frontier, the bytes written to
the output file so far, and the indices recorded as lost. -/
structure MergeState where
  frontier : Nat
  output : List Nat
  lost : List Nat
deriving DecidableEq

/-- Initial merge state: frontier at index 0, empty output, nothing lost. -/
def initMerge : MergeState := { frontier := 0, output := [], lost := [] }

/-- Modelled from the spec: one step of the Merge Coordinator of §4.5 (the
merge-task source is not under src/). If the frontier index has no terminal
outcome the coordinator blocks (`none`); on `Success` it appends the scratch
contents to the output and advances; on `PermanentFailure` it records the
index as lost and advances. -/
def mergeStep (out : Nat → Option SegOutcome) (s : MergeState) : Option MergeState :=
  match out s.frontier with
  | none => none
  | some (SegOutcome.success c) =>
    some { frontier := s.frontier + 1, output := s.output ++ c, lost := s.lost }
  | some SegOutcome.permanentFailure =>
    some { frontier := s.frontier + 1, output := s.output, lost := s.lost ++ [s.frontier] }

/-- Modelled from the spec: `n` consecutive steps of the Merge Coordinator,
`none` if it would block on a missing terminal outcome. -/
def mergeIter (out : Nat → Option SegOutcome) : Nat → MergeState → Option MergeState
  | 0, s => some s
  | n + 1, s =>
    match mergeStep out s with
    | none => none
    | some t => mergeIter out n t

/-- Scratch contents contributed by one outcome: the contents on success,
nothing otherwise. -/
def contentOf : Option SegOutcome → List Nat
  | some (SegOutcome.success c) => c
  | _ => []

/-- Whether an outcome is a recorded permanent failure. -/
def isLost : Option SegOutcome → Bool
  | some SegOutcome.permanentFailure => true
  | _ => false

/-- The index list `[start, start+1, ..., start+n-1]`. -/
def idxRange : Nat → Nat → List Nat
  | _, 0 => []
  | start, n + 1 => start :: idxRange (start + 1) n

/-- Ascending concatenation of the successful segments' scratch contents over
an index list, skipping failed indices. -/
def concatSegs (out : Nat → Option SegOutcome) : List Nat → List Nat
  | [] => []
  | i :: is => contentOf (out i) ++ concatSegs out is

/-- The permanently failed indices of an index list, in ascending order. -/
def lostSegs (out : Nat → Option SegOutcome) : List Nat → List Nat
  | [] => []
  | i :: is => if isLost (out i) then i :: lostSegs out is else lostSegs out is

/-- Embedding of `DownloadResult` (Error, LostSegments, TotalSegments). -/
structure DownloadResult where
  error : Option String
  lostSegments : List Nat
  totalSegments : Nat
deriving DecidableEq

/-- The Go zero value of `DownloadResult`: nil error, nil slice, zero count. -/
def zeroResult : DownloadResult :=
  { error := none, lostSegments := [], totalSegments := 0 }

/-- The fields of `DownloadTask` relevant to `Start`/`Wait` sequencing: the
`started` flag, the `sync.WaitGroup` counter, and the stored result. -/
structure DownloadTaskState where
  started : Bool
  wgCount : Nat
  result : DownloadResult
deriving DecidableEq

/-- A freshly constructed `DownloadTask`: not started, WaitGroup counter
zero, zero-value result. -/
def initTask : DownloadTaskState :=
  { started := false, wgCount := 0, result := zeroResult }

/-- Embedding of `func (d *DownloadTask) Wait()`: `d.wg.Wait()` followed by
returning `&d.result`; `wg.Wait` blocks exactly while the counter is
positive, so on a state with counter zero it returns the stored result
immediately. -/
def waitTask (t : DownloadTaskState) : DownloadResult := t.result

/-- Modelled from the spec: the scheduler state (`segmentStatus`, not under
src/). `segEnd` is the total segment count at creation (`segmentStatus.end`
when `newSegStatus` returns) and `extensions` the successive new totals
passed to `extendTotal` while the download runs (§4.2, live mode). -/
structure SegStatus where
  segEnd : Nat
  extensions : List Nat
deriving DecidableEq

/-- Modelled from the spec: the final total after all `extendTotal` calls —
the last revised total, or the initial total when none occurred. -/
def finalTotal (st : SegStatus) : Nat :=
  st.extensions.foldl (fun _ n => n) st.segEnd

/-- Environment of one `run()` execution: the result of `newSegStatus`
(scheduler creation may fail) and the merge task's final `notMerged` list. -/
structure RunEnv where
  segStatus : Except String SegStatus
  lost : List Nat

/-- Embedding of `func (d *DownloadTask) run()`: on scheduler-creation error
only `result.Error` is set; otherwise `result.TotalSegments` is assigned
`segmentStatus.end` as of creation (before the workers start), and after the
workers and the merge task finish `result.LostSegments` is assigned the
merge task's unmerged list. -/
def runTask (env : RunEnv) : DownloadResult :=
  match env.segStatus with
  | Except.error e => { error := some e, lostSegments := [], totalSegments := 0 }
  | Except.ok st => { error := none, lostSegments := env.lost, totalSegments := st.segEnd }

/-- Task state after `Start()` launched `run()` and `run()` completed
(`wg.Done` ran, so the WaitGroup counter is back to zero). -/
def startedTask (env : RunEnv) : DownloadTaskState :=
  { started := true, wgCount := 0, result := runTask env }

/-- Outcome of one `Start()` call: early return because already started, a
`log.Fatal` (which exits the process), or the goroutine launch. -/
inductive StartResult where
  | noop : StartResult
  | fatal : String → StartResult
  | launched : StartResult
deriving DecidableEq

/-- The configuration fields checked by `Start()`. `threads` models the Go
`uint` field, so `threads < 1` means `threads = 0`. -/
structure StartConfig where
  threads : Nat
  url : String
  mergeFile : String
  segmentDir : String
deriving DecidableEq

/-- Embedding of `func (d *DownloadTask) Start()`: return if already
started; clamp `Threads` below 1 up to 1; `log.Fatal` on empty `Url`,
`MergeFile` or `SegmentDir`; otherwise mark started and launch `run()`.
Returns the outcome, the `started` flag afterwards, and the effective
thread count. -/
def startTask (c : StartConfig) (started : Bool) : StartResult × Bool × Nat :=
  if started then (StartResult.noop, started, c.threads)
  else
    let th := if c.threads < 1 then 1 else c.threads
    if c.url.length = 0 then (StartResult.fatal "Empty URL", false, th)
    else if c.mergeFile.length = 0 then (StartResult.fatal "Empty MergeFile", false, th)
    else if c.segmentDir.length = 0 then (StartResult.fatal "Empty SegmentDir", false, th)
    else (StartResult.launched, true, th)

/-- Witness environment: every transport try fails. -/
def wEnvFail : FetchEnv :=
  { reqOk := fun _ => true, transport := fun _ _ => none,
    tempFileOk := true, tempFileName := "t", copyOk := true }

/-- Witness environment: the transport fails twice, then delivers a 200. -/
def wEnvRetry : FetchEnv :=
  { reqOk := fun _ => true,
    transport := fun _ i => if i < 2 then none else some { status := 200 },
    tempFileOk := true, tempFileName := "t", copyOk := true }

/-- Witness environment: every request gets a 404 response. -/
def wEnvNon200 : FetchEnv :=
  { reqOk := fun _ => true, transport := fun _ _ => some { status := 404 },
    tempFileOk := true, tempFileName := "t", copyOk := true }

/-- Witness environment: like `wEnvNon200` but the probe URL gets transport
errors instead, to exhibit probe-result independence. -/
def wEnvNon200Alt : FetchEnv :=
  { reqOk := fun _ => true,
    transport := fun u _ => if u = "base" then none else some { status := 404 },
    tempFileOk := true, tempFileName := "t", copyOk := true }

/-- Witness environment: 200 response but the scratch-file copy fails. -/
def wEnvCopyFail : FetchEnv :=
  { reqOk := fun _ => true, transport := fun _ _ => some { status := 200 },
    tempFileOk := true, tempFileName := "t", copyOk := false }

/-- Witness attempt oracle: every attempt fails. -/
def wAttFail : Nat → Nat → Bool := fun _ _ => false

/-- Witness attempt oracle: every attempt succeeds. -/
def wAttTrue : Nat → Nat → Bool := fun _ _ => true

/-- Witness attempt oracle: the first `FailThreshold - 1` attempts fail and
the next one succeeds. -/
def wAttLate : Nat → Nat → Bool := fun _ f => f == FailThreshold - 1

/-- Witness outcome table for the merge coordinator: segments 0 and 2
succeed, segment 1 permanently fails, nothing beyond index 2 is terminal. -/
def wOut : Nat → Option SegOutcome := fun i =>
  if i = 0 then some (SegOutcome.success [1, 2])
  else if i = 1 then some SegOutcome.permanentFailure
  else if i = 2 then some (SegOutcome.success [7])
  else none

/-- Counterexample scheduler state: initial total 5, revised to 8 mid-run. -/
def cexStatus : SegStatus := { segEnd := 5, extensions := [8] }

/-- Counterexample run environment built on `cexStatus`. -/
def cexRunEnv : RunEnv := { segStatus := Except.ok cexStatus, lost := [] }

/-- Witness run environment: total 7, no revision, segment 2 lost. -/
def wRunEnv : RunEnv :=
  { segStatus := Except.ok { segEnd := 7, extensions := [] }, lost := [2] }

/-- Witness scheduler state matching `wRunEnv`. -/
def wStatus : SegStatus := { segEnd := 7, extensions := [] }

/-- Counterexample configuration: thread count 0, everything else valid. -/
def cexStartCfg : StartConfig :=
  { threads := 0, url := "u", mergeFile := "m", segmentDir := "s" }

/-- Witness configuration with an empty URL. -/
def wCfgNoUrl : StartConfig :=
  { threads := 3, url := "", mergeFile := "m", segmentDir := "s" }

/-- Witness configuration with an empty merge-file path. -/
def wCfgNoMerge : StartConfig :=
  { threads := 2, url := "u", mergeFile := "", segmentDir := "s" }

/-- Witness configuration with thread count 0 and valid paths. -/
def wCfgZeroThreads : StartConfig :=
  { threads := 0, url := "u", mergeFile := "m", segmentDir := "s" }

lemma countAttempts_append (a b : List WEvent) :
    countAttempts (a ++ b) = countAttempts a + countAttempts b := by
  induction a with
  | nil => simp [countAttempts]
  | cons e es ih =>
    cases e <;> simp [countAttempts, ih]
    omega

lemma loop_exhaust (att : Nat → Nat → Bool) (fc : Nat) :
    downloadTaskLoop att [] none fc = [WEvent.next none] := by
  rw [downloadTaskLoop]

lemma loop_dispense (att : Nat → Nat → Bool) (s : Nat) (rest : List Nat) (fc : Nat) :
    downloadTaskLoop att (s :: rest) none fc
    = WEvent.next (some s) :: downloadTaskLoop att rest (some s) fc := by
  rw [downloadTaskLoop]

lemma loop_giveup (att : Nat → Nat → Bool) (q : List Nat) (s fc : Nat)
    (h : FailThreshold ≤ fc) :
    downloadTaskLoop att q (some s) fc
    = WEvent.record s false :: WEvent.done s :: downloadTaskLoop att q none 0 := by
  rw [downloadTaskLoop]
  simp [h]

lemma loop_succ (att : Nat → Nat → Bool) (q : List Nat) (s fc : Nat)
    (h : fc < FailThreshold) (ha : att s fc = true) :
    downloadTaskLoop att q (some s) fc
    = WEvent.attempt s fc :: WEvent.record s true :: WEvent.done s ::
        downloadTaskLoop att q none 0 := by
  rw [downloadTaskLoop]
  simp [Nat.not_le.mpr h, ha]

lemma loop_fail (att : Nat → Nat → Bool) (q : List Nat) (s fc : Nat)
    (h : fc < FailThreshold) (ha : att s fc = false) :
    downloadTaskLoop att q (some s) fc
    = WEvent.attempt s fc :: WEvent.sleep :: downloadTaskLoop att q (some s) (fc + 1) := by
  rw [downloadTaskLoop]
  simp [Nat.not_le.mpr h, ha]

lemma perSeg_giveup (att : Nat → Nat → Bool) (s fc : Nat) (h : FailThreshold ≤ fc) :
    perSegmentRun att s fc = [WEvent.record s false, WEvent.done s] := by
  rw [perSegmentRun]
  simp [h]

lemma perSeg_succ (att : Nat → Nat → Bool) (s fc : Nat)
    (h : fc < FailThreshold) (ha : att s fc = true) :
    perSegmentRun att s fc = [WEvent.attempt s fc, WEvent.record s true, WEvent.done s] := by
  rw [perSegmentRun]
  simp [Nat.not_le.mpr h, ha]

lemma perSeg_fail (att : Nat → Nat → Bool) (s fc : Nat)
    (h : fc < FailThreshold) (ha : att s fc = false) :
    perSegmentRun att s fc
    = WEvent.attempt s fc :: WEvent.sleep :: perSegmentRun att s (fc + 1) := by
  rw [perSegmentRun]
  simp [Nat.not_le.mpr h, ha]

lemma seg_complete (att : Nat → Nat → Bool) (q : List Nat) (s : Nat) :
    ∀ k fc, FailThreshold - fc = k →
      downloadTaskLoop att q (some s) fc
      = perSegmentRun att s fc ++ downloadTaskLoop att q none 0 := by
  intro k
  induction k with
  | zero =>
    intro fc h
    have hf : FailThreshold ≤ fc := by omega
    rw [loop_giveup att q s fc hf, perSeg_giveup att s fc hf]
    rfl
  | succ n ih =>
    intro fc h
    have hf : fc < FailThreshold := by omega
    by_cases ha : att s fc = true
    · rw [loop_succ att q s fc hf ha, perSeg_succ att s fc hf ha]
      rfl
    · rw [Bool.not_eq_true] at ha
      rw [loop_fail att q s fc hf ha, perSeg_fail att s fc hf ha,
        ih (fc + 1) (by omega)]
      rfl

lemma perSeg_allFail (att : Nat → Nat → Bool) (s : Nat) (hall : ∀ f, att s f = false) :
    ∀ k fc, fc + k = FailThreshold →
      ∃ pre, perSegmentRun att s fc = pre ++ [WEvent.record s false, WEvent.done s]
        ∧ countAttempts pre = k := by
  intro k
  induction k with
  | zero =>
    intro fc h
    refine ⟨[], ?_, rfl⟩
    rw [perSeg_giveup att s fc (by omega)]
    rfl
  | succ n ih =>
    intro fc h
    obtain ⟨pre, hp, hc⟩ := ih (fc + 1) (by omega)
    refine ⟨WEvent.attempt s fc :: WEvent.sleep :: pre, ?_, ?_⟩
    · rw [perSeg_fail att s fc (by omega) (hall fc), hp]
      rfl
    · simp [countAttempts, hc]

lemma perSeg_failThen (att : Nat → Nat → Bool) (s : Nat) :
    ∀ k fc, (∀ f, fc ≤ f → f < fc + k → att s f = false) → att s (fc + k) = true →
      fc + k < FailThreshold →
      ∃ pre, perSegmentRun att s fc
          = pre ++ [WEvent.attempt s (fc + k), WEvent.record s true, WEvent.done s]
        ∧ countAttempts pre = k := by
  intro k
  induction k with
  | zero =>
    intro fc _ hsucc hlt
    refine ⟨[], ?_, rfl⟩
    rw [perSeg_succ att s fc (by omega) (by simpa using hsucc)]
    rfl
  | succ n ih =>
    intro fc hfails hsucc hlt
    have hfc : att s fc = false := hfails fc (Nat.le_refl fc) (by omega)
    obtain ⟨pre, hp, hc⟩ := ih (fc + 1)
      (fun f hf1 hf2 => hfails f (by omega) (by omega))
      (by have : fc + 1 + n = fc + (n + 1) := by omega
          rw [this]; exact hsucc)
      (by omega)
    refine ⟨WEvent.attempt s fc :: WEvent.sleep :: pre, ?_, ?_⟩
    · rw [perSeg_fail att s fc (by omega) hfc, hp]
      have : fc + 1 + n = fc + (n + 1) := by omega
      rw [this]
      rfl
    · simp [countAttempts, hc]

/-- Claim C8: once a worker has been dispensed a segment index it keeps
retrying that same index, without requesting another, until the segment has
a terminal outcome (success or permanent failure); at that point it records
the outcome, resets its local attempt counter to zero, and requests the next
index: the worker loop trace equals, for each queued segment in turn, the
dispensing event followed by that segment's run from attempt count zero. -/
theorem worker_owns_segment (att : Nat → Nat → Bool) (queue : List Nat) :
    downloadTaskLoop att queue none 0 = traceOf att queue := by
  induction queue with
  | nil => rw [loop_exhaust]; rfl
  | cons s rest ih =>
    rw [loop_dispense, seg_complete att rest s FailThreshold 0 rfl, ih]
    rfl

/-- Claim C3: a worker keeps attempting a segment while its failure count is
below `FailThreshold` (20) and abandons it as a permanent failure exactly
when the count reaches the threshold: a segment failing every attempt gets
exactly 20 attempts followed by the failure record and nothing further, and
a segment whose first 19 attempts fail is still retried a 20th time. -/
theorem downloadTask_failThreshold (att att2 : Nat → Nat → Bool) (s : Nat)
    (h1 : ∀ f, att s f = false)
    (h2 : ∀ f, f < FailThreshold - 1 → att2 s f = false)
    (h3 : att2 s (FailThreshold - 1) = true) :
    (∃ pre, downloadTaskLoop att [s] none 0
        = WEvent.next (some s) :: pre
            ++ [WEvent.record s false, WEvent.done s, WEvent.next none]
      ∧ countAttempts pre = FailThreshold)
    ∧ countAttempts (downloadTaskLoop att [s] none 0) = FailThreshold
    ∧ (∃ pre, downloadTaskLoop att2 [s] none 0
        = WEvent.next (some s) :: pre
            ++ [WEvent.attempt s (FailThreshold - 1), WEvent.record s true,
                WEvent.done s, WEvent.next none]
      ∧ countAttempts pre = FailThreshold - 1
      ∧ countAttempts (downloadTaskLoop att2 [s] none 0) = FailThreshold) := by
  obtain ⟨pre, hp, hc⟩ := perSeg_allFail att s h1 FailThreshold 0 (by omega)
  obtain ⟨pre2, hp2, hc2⟩ := perSeg_failThen att2 s (FailThreshold - 1) 0
    (fun f _ hf => h2 f (by omega)) (by simpa using h3) (by decide)
  have e1 : downloadTaskLoop att [s] none 0
      = WEvent.next (some s) :: (perSegmentRun att s 0 ++ [WEvent.next none]) := by
    rw [loop_dispense, seg_complete att [] s FailThreshold 0 rfl, loop_exhaust]
  have e2 : downloadTaskLoop att2 [s] none 0
      = WEvent.next (some s) :: (perSegmentRun att2 s 0 ++ [WEvent.next none]) := by
    rw [loop_dispense, seg_complete att2 [] s FailThreshold 0 rfl, loop_exhaust]
  refine ⟨⟨pre, ?_, hc⟩, ?_, ⟨pre2, ?_, hc2, ?_⟩⟩
  · rw [e1, hp]
    simp
  · rw [e1, hp]
    simp [countAttempts_append, countAttempts, hc]
  · rw [e2, hp2]
    have : (0 : Nat) + (FailThreshold - 1) = FailThreshold - 1 := by omega
    rw [this]
    simp
  · rw [e2, hp2]
    have : (0 : Nat) + (FailThreshold - 1) = FailThreshold - 1 := by omega
    rw [this]
    simp [countAttempts_append, countAttempts, hc2]
    decide

/-- Claim C3 witness: the theorem applied to the all-fail oracle and the
fail-19-then-succeed oracle on segment 0. -/
theorem downloadTask_failThreshold_witness :
    ((∀ f, wAttFail 0 f = false)
      ∧ (∀ f, f < FailThreshold - 1 → wAttLate 0 f = false)
      ∧ wAttLate 0 (FailThreshold - 1) = true)
    ∧ ((∃ pre, downloadTaskLoop wAttFail [0] none 0
        = WEvent.next (some 0) :: pre
            ++ [WEvent.record 0 false, WEvent.done 0, WEvent.next none]
      ∧ countAttempts pre = FailThreshold)
    ∧ countAttempts (downloadTaskLoop wAttFail [0] none 0) = FailThreshold
    ∧ (∃ pre, downloadTaskLoop wAttLate [0] none 0
        = WEvent.next (some 0) :: pre
            ++ [WEvent.attempt 0 (FailThreshold - 1), WEvent.record 0 true,
                WEvent.done 0, WEvent.next none]
      ∧ countAttempts pre = FailThreshold - 1
      ∧ countAttempts (downloadTaskLoop wAttLate [0] none 0) = FailThreshold)) :=
  ⟨⟨fun _ => rfl, by decide, by decide⟩,
    downloadTask_failThreshold wAttFail wAttLate 0 (fun _ => rfl) (by decide) (by decide)⟩

lemma mergeStep_some (out : Nat → Option SegOutcome) (s t : MergeState)
    (h : mergeStep out s = some t) :
    t.frontier = s.frontier + 1 ∧ (out s.frontier).isSome := by
  unfold mergeStep at h
  rcases ho : out s.frontier with _ | o
  · rw [ho] at h
    cases h
  · cases o with
    | success c =>
      rw [ho] at h
      cases h
      simp
    | permanentFailure =>
      rw [ho] at h
      cases h
      simp

lemma mergeIter_frontier (out : Nat → Option SegOutcome) :
    ∀ n s s', mergeIter out n s = some s' →
      s'.frontier = s.frontier + n ∧ ∀ k, k < n → (out (s.frontier + k)).isSome := by
  intro n
  induction n with
  | zero =>
    intro s s' h
    simp [mergeIter] at h
    subst h
    simp
  | succ n ih =>
    intro s s' h
    rw [mergeIter] at h
    rcases hs : mergeStep out s with _ | t
    · rw [hs] at h
      cases h
    · rw [hs] at h
      obtain ⟨hf, hsome⟩ := mergeStep_some out s t hs
      obtain ⟨h1, h2⟩ := ih t s' h
      constructor
      · omega
      · intro k hk
        cases k with
        | zero => simpa using hsome
        | succ j =>
          have := h2 j (by omega)
          have e : t.frontier + j = s.frontier + (j + 1) := by omega
          rw [e] at this
          exact this

lemma mergeIter_run (out : Nat → Option SegOutcome) :
    ∀ n s, (∀ k, k < n → (out (s.frontier + k)).isSome) →
      mergeIter out n s = some
        ⟨s.frontier + n,
          s.output ++ concatSegs out (idxRange s.frontier n),
          s.lost ++ lostSegs out (idxRange s.frontier n)⟩ := by
  intro n
  induction n with
  | zero =>
    intro s _
    simp [mergeIter, idxRange, concatSegs, lostSegs]
  | succ n ih =>
    intro s h
    have h0 : (out s.frontier).isSome := by simpa using h 0 (by omega)
    have hshift : ∀ t : MergeState, t.frontier = s.frontier + 1 →
        ∀ k, k < n → (out (t.frontier + k)).isSome := by
      intro t ht k hk
      have := h (k + 1) (by omega)
      have e : s.frontier + (k + 1) = t.frontier + k := by omega
      rw [e] at this
      exact this
    rw [mergeIter]
    rcases ho : out s.frontier with _ | o
    · rw [ho] at h0
      simp at h0
    · cases o with
      | success c =>
        have hstep : mergeStep out s = some ⟨s.frontier + 1, s.output ++ c, s.lost⟩ := by
          unfold mergeStep
          rw [ho]
        rw [hstep]
        have ih' := ih ⟨s.frontier + 1, s.output ++ c, s.lost⟩ (hshift _ rfl)
        dsimp only
        rw [ih']
        simp only [idxRange, concatSegs, lostSegs, contentOf, isLost, ho,
          Option.some.injEq, MergeState.mk.injEq]
        refine ⟨by omega, by simp, by simp⟩
      | permanentFailure =>
        have hstep : mergeStep out s
            = some ⟨s.frontier + 1, s.output, s.lost ++ [s.frontier]⟩ := by
          unfold mergeStep
          rw [ho]
        rw [hstep]
        have ih' := ih ⟨s.frontier + 1, s.output, s.lost ++ [s.frontier]⟩ (hshift _ rfl)
        dsimp only
        rw [ih']
        simp only [idxRange, concatSegs, lostSegs, contentOf, isLost, ho,
          Option.some.injEq, MergeState.mk.injEq]
        refine ⟨by omega, by simp, by simp⟩

/-- Claim C1: the merge coordinator advances its frontier past an index only
once that index has a terminal outcome, advances it strictly in ascending
order (one index per step), and when every index below the total is terminal
it terminates with the output file equal to the ascending concatenation of
the successfully fetched segments' scratch contents, the permanently failed
indices skipped and recorded as lost. -/
theorem merge_frontier_output (out : Nat → Option SegOutcome) (total : Nat)
    (hterm : ∀ i, i < total → (out i).isSome) :
    (∀ n s', mergeIter out n initMerge = some s' →
      s'.frontier = n ∧ ∀ i, i < n → (out i).isSome)
    ∧ mergeIter out total initMerge = some
        ⟨total, concatSegs out (idxRange 0 total), lostSegs out (idxRange 0 total)⟩ := by
  constructor
  · intro n s' h
    obtain ⟨h1, h2⟩ := mergeIter_frontier out n initMerge s' h
    refine ⟨by simpa [initMerge] using h1, fun i hi => ?_⟩
    have := h2 i hi
    simpa [initMerge] using this
  · have := mergeIter_run out total initMerge
      (by intro k hk
          have := hterm k (by simpa [initMerge] using hk)
          simpa [initMerge] using this)
    simpa [initMerge] using this

/-- Claim C1 witness: the theorem applied to a three-segment table where
segment 1 permanently fails. -/
theorem merge_frontier_output_witness :
    (∀ i, i < 3 → (wOut i).isSome)
    ∧ ((∀ n s', mergeIter wOut n initMerge = some s' →
        s'.frontier = n ∧ ∀ i, i < n → (wOut i).isSome)
      ∧ mergeIter wOut 3 initMerge = some
          ⟨3, concatSegs wOut (idxRange 0 3), lostSegs wOut (idxRange 0 3)⟩) :=
  ⟨by decide, merge_frontier_output wOut 3 (by decide)⟩

lemma doRequestLoop_no_panic (c : Nat) (tr : Nat → Option Response) :
    ∀ rem i, (doRequestLoop (some c) tr i rem).1 ≠ ReqResult.panicked := by
  intro rem
  induction rem with
  | zero =>
    intro i
    simp [doRequestLoop]
  | succ n ih =>
    intro i
    rcases ht : tr i with _ | r
    · simpa [doRequestLoop, clientDo, ht] using ih (i + 1)
    · simp [doRequestLoop, clientDo, ht]

lemma isPanic_doRequest (c : Nat) (tr : Nat → Option Response) :
    isPanic (doRequest (some c) tr).1 = false := by
  have hnp := doRequestLoop_no_panic c tr RetryThreshold 0
  unfold doRequest
  cases h : (doRequestLoop (some c) tr 0 RetryThreshold).1 with
  | panicked => exact absurd h hnp
  | ok r => rfl
  | allFailed => rfl

/-- Claim C2 counterexample: a run whose scheduler starts at total 5 and is
revised to 8 mid-run still reports `TotalSegments = 5`, not the final
total 8: `run()` snapshots `segmentStatus.end` before the workers start. -/
theorem run_total_counterexample :
    (runTask cexRunEnv).totalSegments = 5 ∧ finalTotal cexStatus = 8
    ∧ ¬ (runTask cexRunEnv).totalSegments = finalTotal cexStatus := by
  decide

/-- Claim C2 (amended): for every run whose scheduler creation succeeds,
`Wait()` returns the run's result (the WaitGroup counter is back to zero, so
it returns without blocking, once), and `TotalSegments` equals the scheduler
total as of initialization, not the revised total. -/
theorem run_total_initial (env : RunEnv) (st : SegStatus)
    (h : env.segStatus = Except.ok st) :
    waitTask (startedTask env) = runTask env
    ∧ (startedTask env).wgCount = 0
    ∧ (runTask env).totalSegments = st.segEnd
    ∧ (runTask env).error = none
    ∧ (runTask env).lostSegments = env.lost := by
  refine ⟨rfl, rfl, ?_, ?_, ?_⟩ <;> simp [runTask, h]

/-- Claim C2 witness: the amended theorem applied to a concrete environment
with total 7 and lost segment 2. -/
theorem run_total_initial_witness :
    wRunEnv.segStatus = Except.ok wStatus
    ∧ (waitTask (startedTask wRunEnv) = runTask wRunEnv
      ∧ (startedTask wRunEnv).wgCount = 0
      ∧ (runTask wRunEnv).totalSegments = wStatus.segEnd
      ∧ (runTask wRunEnv).error = none
      ∧ (runTask wRunEnv).lostSegments = wRunEnv.lost) :=
  ⟨rfl, run_total_initial wRunEnv wStatus rfl⟩

/-- Claim C4 counterexample: with thread count 0 and valid URL and paths,
`Start()` does not report a fatal error: it silently normalizes the thread
count to 1 and launches the download. -/
theorem start_threads_counterexample :
    startTask cexStartCfg false = (StartResult.launched, true, 1) := by
  decide

/-- Claim C4 (amended): on a task not yet started, `Start()` treats an empty
URL and an empty merge-file path (and an empty segment directory) as fatal,
reported before any work begins and leaving the task unstarted; an invalid
thread count (0) is not a fatal error — it is silently normalized to 1 and
the download launches. -/
theorem start_validation (c c2 c3 : StartConfig)
    (h1 : c.url.length = 0)
    (h2 : c2.url.length ≠ 0) (h3 : c2.mergeFile.length = 0)
    (h4 : c3.url.length ≠ 0) (h5 : c3.mergeFile.length ≠ 0)
    (h6 : c3.segmentDir.length ≠ 0) (h7 : c3.threads = 0) :
    startTask c false
      = (StartResult.fatal "Empty URL", false, if c.threads < 1 then 1 else c.threads)
    ∧ startTask c2 false
      = (StartResult.fatal "Empty MergeFile", false, if c2.threads < 1 then 1 else c2.threads)
    ∧ startTask c3 false = (StartResult.launched, true, 1) := by
  refine ⟨?_, ?_, ?_⟩ <;> simp [startTask, h1, h2, h3, h4, h5, h6, h7]

/-- Claim C4 witness: the amended theorem applied to an empty-URL
configuration, an empty-merge-file configuration, and a zero-thread
configuration. -/
theorem start_validation_witness :
    (wCfgNoUrl.url.length = 0
      ∧ wCfgNoMerge.url.length ≠ 0 ∧ wCfgNoMerge.mergeFile.length = 0
      ∧ wCfgZeroThreads.url.length ≠ 0 ∧ wCfgZeroThreads.mergeFile.length ≠ 0
      ∧ wCfgZeroThreads.segmentDir.length ≠ 0 ∧ wCfgZeroThreads.threads = 0)
    ∧ (startTask wCfgNoUrl false
        = (StartResult.fatal "Empty URL", false,
            if wCfgNoUrl.threads < 1 then 1 else wCfgNoUrl.threads)
      ∧ startTask wCfgNoMerge false
        = (StartResult.fatal "Empty MergeFile", false,
            if wCfgNoMerge.threads < 1 then 1 else wCfgNoMerge.threads)
      ∧ startTask wCfgZeroThreads false = (StartResult.launched, true, 1)) :=
  ⟨⟨by decide, by decide, by decide, by decide, by decide, by decide, by decide⟩,
    start_validation wCfgNoUrl wCfgNoMerge wCfgZeroThreads
      (by decide) (by decide) (by decide) (by decide) (by decide) (by decide) (by decide)⟩

/-- Claim C10: calling `Wait()` on a task on which `Start()` was never
called returns immediately — the WaitGroup counter of a fresh task is zero —
with the zero-value result: nil error, empty lost-segment list, total 0. -/
theorem wait_without_start :
    waitTask initTask = zeroResult ∧ initTask.wgCount = 0
    ∧ zeroResult.error = none ∧ zeroResult.lostSegments = []
    ∧ zeroResult.totalSegments = 0 := by
  decide

/-- Claim C5: within one segment-level attempt, transport failures are
retried inline up to `RetryThreshold` (3): if every inline try fails the
attempt group is one failed attempt (`downloadSegment` returns false with no
recorded outcome, so never directly a permanent failure, and the worker only
increments its counter by one and keeps the segment); if an inline try
succeeds — here after two transport errors — the group is one successful
attempt and the worker's counter is not incremented (the segment completes
and the counter resets). -/
theorem doRequest_inline_retry (c : Nat) (env env2 : FetchEnv) (url : String) (seg : Nat)
    (r : Response) (att : Nat → Nat → Bool) (q : List Nat) (s fc : Nat)
    (att2 : Nat → Nat → Bool) (q2 : List Nat) (s2 fc2 : Nat)
    (hA : ∀ i, i < RetryThreshold → env.transport (getSegUrl url seg) i = none)
    (hA2 : env.reqOk (getSegUrl url seg) = true)
    (hB0 : env2.reqOk (getSegUrl url seg) = true)
    (hB1 : env2.transport (getSegUrl url seg) 0 = none)
    (hB2 : env2.transport (getSegUrl url seg) 1 = none)
    (hB3 : env2.transport (getSegUrl url seg) 2 = some r)
    (hB4 : r.status = 200)
    (hB5 : env2.tempFileOk = true)
    (hB6 : env2.copyOk = true)
    (hC1 : fc < FailThreshold) (hC2 : att s fc = true)
    (hD1 : fc2 < FailThreshold) (hD2 : att2 s2 fc2 = false) :
    doRequest (some c) (env.transport (getSegUrl url seg))
      = (ReqResult.allFailed, RetryThreshold)
    ∧ (downloadSegment (some c) env url seg).ok = false
    ∧ (downloadSegment (some c) env url seg).recorded = none
    ∧ doRequest (some c) (env2.transport (getSegUrl url seg))
      = (ReqResult.ok r, RetryThreshold)
    ∧ (downloadSegment (some c) env2 url seg).ok = true
    ∧ (downloadSegment (some c) env2 url seg).recorded = some (true, env2.tempFileName)
    ∧ downloadTaskLoop att q (some s) fc
      = WEvent.attempt s fc :: WEvent.record s true :: WEvent.done s ::
          downloadTaskLoop att q none 0
    ∧ downloadTaskLoop att2 q2 (some s2) fc2
      = WEvent.attempt s2 fc2 :: WEvent.sleep ::
          downloadTaskLoop att2 q2 (some s2) (fc2 + 1) := by
  have t0 := hA 0 (by decide)
  have t1 := hA 1 (by decide)
  have t2 := hA 2 (by decide)
  have e1 : doRequest (some c) (env.transport (getSegUrl url seg))
      = (ReqResult.allFailed, RetryThreshold) := by
    simp [doRequest, doRequestLoop, clientDo, t0, t1, t2, RetryThreshold]
  have e2 : doRequest (some c) (env2.transport (getSegUrl url seg))
      = (ReqResult.ok r, RetryThreshold) := by
    simp [doRequest, doRequestLoop, clientDo, hB1, hB2, hB3, RetryThreshold]
  refine ⟨e1, ?_, ?_, e2, ?_, ?_, ?_, ?_⟩
  · simp [downloadSegment, hA2, e1]
  · simp [downloadSegment, hA2, e1]
  · simp [downloadSegment, hB0, e2, hB4, hB5, hB6]
  · simp [downloadSegment, hB0, e2, hB4, hB5, hB6]
  · exact loop_succ att q s fc hC1 hC2
  · exact loop_fail att2 q2 s2 fc2 hD1 hD2

/-- Claim C5 witness: the theorem applied to the all-fail transport, the
fail-twice-then-200 transport, the always-succeeding attempt oracle and the
always-failing attempt oracle. -/
theorem doRequest_inline_retry_witness :
    ((∀ i, i < RetryThreshold → wEnvFail.transport (getSegUrl "base" 0) i = none)
      ∧ wEnvFail.reqOk (getSegUrl "base" 0) = true
      ∧ wEnvRetry.reqOk (getSegUrl "base" 0) = true
      ∧ wEnvRetry.transport (getSegUrl "base" 0) 0 = none
      ∧ wEnvRetry.transport (getSegUrl "base" 0) 1 = none
      ∧ wEnvRetry.transport (getSegUrl "base" 0) 2 = some { status := 200 }
      ∧ (0 : Nat) < FailThreshold
      ∧ wAttTrue 0 0 = true ∧ wAttFail 0 0 = false)
    ∧ (doRequest (some 1) (wEnvFail.transport (getSegUrl "base" 0))
        = (ReqResult.allFailed, RetryThreshold)
      ∧ (downloadSegment (some 1) wEnvFail "base" 0).ok = false
      ∧ (downloadSegment (some 1) wEnvFail "base" 0).recorded = none
      ∧ doRequest (some 1) (wEnvRetry.transport (getSegUrl "base" 0))
        = (ReqResult.ok { status := 200 }, RetryThreshold)
      ∧ (downloadSegment (some 1) wEnvRetry "base" 0).ok = true
      ∧ (downloadSegment (some 1) wEnvRetry "base" 0).recorded
        = some (true, wEnvRetry.tempFileName)
      ∧ downloadTaskLoop wAttTrue [] (some 0) 0
        = WEvent.attempt 0 0 :: WEvent.record 0 true :: WEvent.done 0 ::
            downloadTaskLoop wAttTrue [] none 0
      ∧ downloadTaskLoop wAttFail [] (some 0) 0
        = WEvent.attempt 0 0 :: WEvent.sleep ::
            downloadTaskLoop wAttFail [] (some 0) (0 + 1)) :=
  ⟨⟨by decide, by decide, by decide, by decide, by decide, by decide, by decide,
      rfl, rfl⟩,
    doRequest_inline_retry 1 wEnvFail wEnvRetry "base" 0 { status := 200 }
      wAttTrue [] 0 0 wAttFail [] 0 0
      (by decide) (by decide) (by decide) (by decide) (by decide) (by decide)
      (by decide) (by decide) (by decide) (by decide) rfl (by decide) rfl⟩

/-- Claim C6: when the segment request yields a non-success HTTP status, the
attempt is treated as failed with no outcome recorded, and exactly one probe
request is issued against the bare stream URL (without the segment index);
the probe's result does not affect anything the fetcher returns: changing
the transport's answers on the probe URL leaves the whole result unchanged. -/
theorem probe_on_non200 (c : Nat) (env env2 : FetchEnv) (url : String) (seg : Nat)
    (r : Response)
    (h1 : env.reqOk (getSegUrl url seg) = true)
    (h2 : env.reqOk url = true)
    (h3 : (doRequest (some c) (env.transport (getSegUrl url seg))).1 = ReqResult.ok r)
    (h4 : r.status ≠ 200)
    (h5 : env2.reqOk = env.reqOk)
    (h6 : env2.transport (getSegUrl url seg) = env.transport (getSegUrl url seg))
    (h7 : env2.tempFileOk = env.tempFileOk)
    (h8 : env2.tempFileName = env.tempFileName)
    (h9 : env2.copyOk = env.copyOk) :
    (downloadSegment (some c) env url seg).ok = false
    ∧ (downloadSegment (some c) env url seg).urlsRequested = [getSegUrl url seg, url]
    ∧ (downloadSegment (some c) env url seg).recorded = none
    ∧ downloadSegment (some c) env2 url seg = downloadSegment (some c) env url seg := by
  have p1 : isPanic (doRequest (some c) (env.transport url)).1 = false :=
    isPanic_doRequest c _
  have p2 : isPanic (doRequest (some c) (env2.transport url)).1 = false :=
    isPanic_doRequest c _
  refine ⟨?_, ?_, ?_, ?_⟩
  · simp [downloadSegment, h1, h2, h3, h4]
  · simp [downloadSegment, h1, h2, h3, h4]
  · simp [downloadSegment, h1, h2, h3, h4]
  · simp only [downloadSegment, h5, h6, h7, h8, h9, p1, p2]

/-- Claim C6 witness: the theorem applied to an all-404 environment and a
variant environment whose probe-URL transport always errors. -/
theorem probe_on_non200_witness :
    (wEnvNon200.reqOk (getSegUrl "base" 0) = true
      ∧ wEnvNon200.reqOk "base" = true
      ∧ (doRequest (some 1) (wEnvNon200.transport (getSegUrl "base" 0))).1
        = ReqResult.ok { status := 404 }
      ∧ ({ status := 404 } : Response).status ≠ 200
      ∧ wEnvNon200Alt.reqOk = wEnvNon200.reqOk
      ∧ wEnvNon200Alt.transport (getSegUrl "base" 0)
        = wEnvNon200.transport (getSegUrl "base" 0))
    ∧ ((downloadSegment (some 1) wEnvNon200 "base" 0).ok = false
      ∧ (downloadSegment (some 1) wEnvNon200 "base" 0).urlsRequested
        = [getSegUrl "base" 0, "base"]
      ∧ (downloadSegment (some 1) wEnvNon200 "base" 0).recorded = none
      ∧ downloadSegment (some 1) wEnvNon200Alt "base" 0
        = downloadSegment (some 1) wEnvNon200 "base" 0) :=
  ⟨⟨by decide, by decide, by decide, by decide, rfl,
      by funext i; rfl⟩,
    probe_on_non200 1 wEnvNon200 wEnvNon200Alt "base" 0 { status := 404 }
      (by decide) (by decide) (by decide) (by decide) rfl
      (by funext i; rfl) rfl rfl rfl⟩

/-- Claim C7: when the segment response arrives with status 200 but writing
the body to the scratch file fails, the attempt reports failure, the
partially written scratch file is deleted before returning, and no success
outcome is recorded for the segment. -/
theorem write_error_cleanup (c : Nat) (env : FetchEnv) (url : String) (seg : Nat)
    (r : Response)
    (h1 : env.reqOk (getSegUrl url seg) = true)
    (h2 : (doRequest (some c) (env.transport (getSegUrl url seg))).1 = ReqResult.ok r)
    (h3 : r.status = 200)
    (h4 : env.tempFileOk = true)
    (h5 : env.copyOk = false) :
    (downloadSegment (some c) env url seg).ok = false
    ∧ (downloadSegment (some c) env url seg).filesCreated = [env.tempFileName]
    ∧ (downloadSegment (some c) env url seg).filesDeleted = [env.tempFileName]
    ∧ (downloadSegment (some c) env url seg).recorded = none := by
  refine ⟨?_, ?_, ?_, ?_⟩ <;> simp [downloadSegment, h1, h2, h3, h4, h5]

/-- Claim C7 witness: the theorem applied to the 200-but-copy-fails
environment. -/
theorem write_error_cleanup_witness :
    (wEnvCopyFail.reqOk (getSegUrl "base" 0) = true
      ∧ (doRequest (some 1) (wEnvCopyFail.transport (getSegUrl "base" 0))).1
        = ReqResult.ok { status := 200 }
      ∧ ({ status := 200 } : Response).status = 200
      ∧ wEnvCopyFail.tempFileOk = true
      ∧ wEnvCopyFail.copyOk = false)
    ∧ ((downloadSegment (some 1) wEnvCopyFail "base" 0).ok = false
      ∧ (downloadSegment (some 1) wEnvCopyFail "base" 0).filesCreated
        = [wEnvCopyFail.tempFileName]
      ∧ (downloadSegment (some 1) wEnvCopyFail "base" 0).filesDeleted
        = [wEnvCopyFail.tempFileName]
      ∧ (downloadSegment (some 1) wEnvCopyFail "base" 0).recorded = none) :=
  ⟨⟨by decide, by decide, rfl, rfl, rfl⟩,
    write_error_cleanup 1 wEnvCopyFail "base" 0 { status := 200 }
      (by decide) (by decide) rfl rfl rfl⟩

/-- Claim C9: on a task whose `Client` field is nil, every fetch attempt
panics: `doRequest` calls the raw `task.Client.Do` rather than the
`client()` accessor, so the first `Do` call dereferences nil and the
default-client fallback — which the accessor does provide — is unreachable
during segment downloads. -/
theorem nil_client_panics (tr : Nat → Option Response) (env : FetchEnv)
    (url : String) (seg : Nat)
    (h : env.reqOk (getSegUrl url seg) = true) :
    (doRequest none tr).1 = ReqResult.panicked
    ∧ (doRequest none tr).2 = 1
    ∧ (downloadSegment none env url seg).panicked = true
    ∧ client none = defaultClient := by
  have hp : ∀ tr2 : Nat → Option Response,
      doRequest none tr2 = (ReqResult.panicked, 1) := by
    intro tr2
    simp [doRequest, doRequestLoop, clientDo, RetryThreshold]
  refine ⟨by rw [hp tr], by rw [hp tr], ?_, rfl⟩
  simp [downloadSegment, h, hp]

/-- Claim C9 witness: the theorem applied to a concrete transport and
environment. -/
theorem nil_client_panics_witness :
    wEnvFail.reqOk (getSegUrl "base" 0) = true
    ∧ ((doRequest none (wEnvFail.transport "base")).1 = ReqResult.panicked
      ∧ (doRequest none (wEnvFail.transport "base")).2 = 1
      ∧ (downloadSegment none wEnvFail "base" 0).panicked = true
      ∧ client none = defaultClient) :=
  ⟨by decide,
    nil_client_panics (wEnvFail.transport "base") wEnvFail "base" 0 (by decide)⟩

end Download
